import Mathlib

/-!
Verification of the ANT conversational-agent core.

This file gives a shallow embedding of the conversation-state manager of the
repository: `LLMInterface` and `AgentManager` from `src/NLP/LLM.py`, and the
facade methods `ANT.chat` / `ANT.process_text` from `src/ANT.py`.  The remote
chat-completion transport is external and opaque, so it is modelled as a
function parameter from the request data (model, temperature, max_tokens, and
the full message history) to either a successful reply string or an error
detail string (a raised exception's text).  Python string truthiness for the
API-key lookup is modelled explicitly on `Option String`.
-/

/-- A chat message, mirroring the Python dict `{"role": ..., "content": ...}`. -/
structure Message where
  role : String
  content : String
deriving DecidableEq, Repr

/-- The mutable state of `LLMInterface`: the ordered conversation history and
the currently configured system prompt (`src/NLP/LLM.py`, `__init__`). -/
structure LLMState where
  conversation_history : List Message
  system_prompt : String
deriving DecidableEq, Repr

/-- Outcome of one call to the remote completion transport: either the reply
text (`response.choices[0].message.content`) or the text of the exception it
raised. -/
inductive TransportResult where
  | success (reply : String)
  | error (detail : String)
deriving DecidableEq, Repr

/-- The opaque transport: receives model, temperature, max_tokens and the full
message history, returns a reply or raises. -/
def Transport : Type :=
  String → ℚ → Nat → List Message → TransportResult

/-- A transport stubbed to always return the fixed reply `reply`. -/
def constTransport (reply : String) : Transport :=
  fun _ _ _ _ => TransportResult.success reply

/-- A transport stubbed to always raise with detail `detail`. -/
def failTransport (detail : String) : Transport :=
  fun _ _ _ _ => TransportResult.error detail

namespace LLMInterface

/-- Python truthiness of a str-or-None value: `None` and `""` are falsy. -/
def truthy : Option String → Bool
  | some s => s ≠ ""
  | none => false

/-- Python `a or b` on str-or-None values. -/
def pyOr (a b : Option String) : Option String :=
  match a with
  | some s => if s = "" then b else some s
  | none => b

/-- The state built by `LLMInterface.__init__` when construction succeeds:
empty history and the default system prompt (`src/NLP/LLM.py` lines 18-20). -/
def freshState : LLMState :=
  { conversation_history := [], system_prompt := "You are a helpful assistant." }

/-- `LLMInterface.__init__` (`src/NLP/LLM.py` lines 6-20): the effective key is
`api_key or os.getenv("OPENAI_API_KEY")`; if it is falsy, a `ValueError` is
raised, otherwise the fresh state is created.  `env_api_key` models the value
of the `OPENAI_API_KEY` environment variable (`none` when unset). -/
def init (api_key env_api_key : Option String) : Except String LLMState :=
  if truthy (pyOr api_key env_api_key) then
    Except.ok freshState
  else
    Except.error "API key is required. Please set OPENAI_API_KEY environment variable."

/-- `LLMInterface.set_system_prompt` (`src/NLP/LLM.py` lines 22-26): stores the
prompt and resets the history to a single system message carrying it. -/
def set_system_prompt (st : LLMState) (prompt : String) : LLMState :=
  { st with
    system_prompt := prompt,
    conversation_history := [{ role := "system", content := prompt }] }

/-- `LLMInterface.add_message` (`src/NLP/LLM.py` lines 28-30): appends the
given role/content pair at the end of the history, with no validation. -/
def add_message (st : LLMState) (role content : String) : LLMState :=
  { st with conversation_history :=
      st.conversation_history ++ [{ role := role, content := content }] }

/-- The inline check at the top of `generate_response` (`src/NLP/LLM.py` lines
34-36): if the history is empty or its first element's role is not "system",
the whole history is replaced by the single configured system message. -/
def ensure_system (st : LLMState) : LLMState :=
  match st.conversation_history with
  | [] => { st with conversation_history :=
      [{ role := "system", content := st.system_prompt }] }
  | m :: _ =>
      if m.role = "system" then st
      else { st with conversation_history :=
        [{ role := "system", content := st.system_prompt }] }

/-- `LLMInterface.generate_response` (`src/NLP/LLM.py` lines 32-56): heal the
history head, append the user message, call the transport on the full history;
on success append the reply as an assistant message and return it, on an
exception return `"Error generating response: <detail>"` without appending. -/
def generate_response (transport : Transport) (st : LLMState)
    (user_input : String) (model : String) (temperature : ℚ)
    (max_tokens : Nat) : LLMState × String :=
  let st1 := add_message (ensure_system st) "user" user_input
  match transport model temperature max_tokens st1.conversation_history with
  | TransportResult.success reply =>
      (add_message st1 "assistant" reply, reply)
  | TransportResult.error detail =>
      (st1, "Error generating response: " ++ detail)

/-- `LLMInterface.clear_history` (`src/NLP/LLM.py` lines 58-60): resets the
history to a single system message carrying the current system prompt. -/
def clear_history (st : LLMState) : LLMState :=
  { st with conversation_history :=
      [{ role := "system", content := st.system_prompt }] }

/-- `LLMInterface.get_history` (`src/NLP/LLM.py` lines 62-64). -/
def get_history (st : LLMState) : List Message :=
  st.conversation_history

/-- A sequence of `add_message` calls, folded left over the state. -/
def add_messages (st : LLMState) (ms : List (String × String)) : LLMState :=
  ms.foldl (fun s rc => add_message s rc.1 rc.2) st

end LLMInterface

/-- An agent preset (`src/NLP/LLM.py`, `AgentManager.__init__`): a system
prompt and a voice tag. -/
structure Agent where
  system_prompt : String
  voice : String
deriving DecidableEq, Repr

/-- The state of `AgentManager` together with the `LLMInterface` it wraps.
The Python dict `self.agents` (insertion-ordered, string-keyed) is modelled as
an association list. -/
structure AgentManagerState where
  llm : LLMState
  agents : List (String × Agent)
deriving DecidableEq, Repr

namespace AgentManager

/-- Dict lookup `self.agents[agent_name]` / membership `agent_name in
self.agents` on the association list. -/
def lookupAgent (agents : List (String × Agent)) (name : String) :
    Option Agent :=
  (agents.find? (fun p => p.1 = name)).map Prod.snd

/-- The registry as populated by `AgentManager.__init__`
(`src/NLP/LLM.py` lines 68-76): a single "default" agent. -/
def initialAgents : List (String × Agent) :=
  [("default", { system_prompt := "你是一个有帮助的助手。使用中文回答。",
                 voice := "default" })]

/-- `AgentManager.set_agent` (`src/NLP/LLM.py` lines 77-83): if the name is
registered, apply its system prompt via `set_system_prompt` and return `True`;
otherwise return `False` with no mutation. -/
def set_agent (st : AgentManagerState) (agent_name : String) :
    AgentManagerState × Bool :=
  match lookupAgent st.agents agent_name with
  | some agent =>
      ({ st with llm := LLMInterface.set_system_prompt st.llm agent.system_prompt },
       true)
  | none => (st, false)

/-- `AgentManager.list_agents` (`src/NLP/LLM.py` lines 85-87). -/
def list_agents (st : AgentManagerState) : List String :=
  st.agents.map Prod.fst

end AgentManager

namespace ANT

/-- Default `model` argument of `generate_response`. -/
def defaultModel : String := "gpt-3.5-turbo"

/-- Default `temperature` argument of `generate_response` (0.7). -/
def defaultTemperature : ℚ := 7 / 10

/-- Default `max_tokens` argument of `generate_response`. -/
def defaultMaxTokens : Nat := 500

/-- `ANT.chat` (`src/ANT.py` lines 110-112): delegates to
`self.llm.generate_response(message)` with all sampling defaults. -/
def chat (transport : Transport) (st : LLMState) (message : String) :
    LLMState × String :=
  LLMInterface.generate_response transport st message defaultModel
    defaultTemperature defaultMaxTokens

/-- `ANT.process_text` (`src/ANT.py` lines 68-70): delegates to
`self.llm.generate_response(text)` with all sampling defaults. -/
def process_text (transport : Transport) (st : LLMState) (text : String) :
    LLMState × String :=
  LLMInterface.generate_response transport st text defaultModel
    defaultTemperature defaultMaxTokens

end ANT

open LLMInterface AgentManager

/-- Claim C10: `ANT.chat` and `ANT.process_text` are extensionally equal: for
every transport, session state and input string they produce the same reply
and the same resulting conversation history. -/
theorem C10_chat_eq_process_text (tr : Transport) (st : LLMState)
    (s : String) : ANT.chat tr st s = ANT.process_text tr st s :=
  rfl

/-- Claim C7: `clear_history` produces exactly the state of
`set_system_prompt` applied to the currently configured system prompt, and the
resulting snapshot is the single system message carrying that prompt. -/
theorem C7_clear_eq_set_system_prompt (st : LLMState) :
    clear_history st = set_system_prompt st st.system_prompt ∧
    (clear_history st).conversation_history
      = [{ role := "system", content := st.system_prompt }] :=
  ⟨rfl, rfl⟩

/-- Claim C4: with the transport stubbed to return the fixed reply "OK",
starting from a freshly constructed session, calling `chat "hi"` twice yields
a snapshot of length 5 in the order
[system, user "hi", assistant "OK", user "hi", assistant "OK"]. -/
theorem C4_chat_twice_snapshot :
    LLMInterface.init (some "k") none = Except.ok freshState ∧
    (ANT.chat (constTransport "OK")
        (ANT.chat (constTransport "OK") freshState "hi").1
        "hi").1.conversation_history
      = [{ role := "system", content := "You are a helpful assistant." },
         { role := "user", content := "hi" },
         { role := "assistant", content := "OK" },
         { role := "user", content := "hi" },
         { role := "assistant", content := "OK" }] :=
  ⟨rfl, rfl⟩

/-- Claim C9: constructing `LLMInterface` with no API-key argument and no
credential available from the environment raises a `ValueError` and no usable
session state is created. -/
theorem C9_missing_key_fatal (env_api_key : Option String)
    (h : truthy env_api_key = false) :
    LLMInterface.init none env_api_key
        = Except.error
            "API key is required. Please set OPENAI_API_KEY environment variable." ∧
    (LLMInterface.init none env_api_key).isOk = false := by
  have hdone : LLMInterface.init none env_api_key
      = Except.error
          "API key is required. Please set OPENAI_API_KEY environment variable." := by
    simp [LLMInterface.init, pyOr, h]
  exact ⟨hdone, by rw [hdone]; rfl⟩

/-- Witness for C9 at the concrete input where both the argument and the
environment variable are absent. -/
theorem C9_missing_key_fatal_witness :
    truthy (none : Option String) = false ∧
    (LLMInterface.init none none
        = Except.error
            "API key is required. Please set OPENAI_API_KEY environment variable." ∧
     (LLMInterface.init none none).isOk = false) :=
  ⟨rfl, C9_missing_key_fatal none rfl⟩

/-- Helper: a fold of `add_message` calls never changes the head of a
nonempty history, since each call appends at the end. -/
theorem add_messages_head (ms : List (String × String)) :
    ∀ st : LLMState, st.conversation_history ≠ [] →
      (add_messages st ms).conversation_history.head?
        = st.conversation_history.head? := by
  induction ms with
  | nil => intro st _; rfl
  | cons rc rest ih =>
      intro st hne
      have hstep : add_messages st (rc :: rest)
          = add_messages (add_message st rc.1 rc.2) rest := rfl
      rw [hstep, ih]
      · cases hl : st.conversation_history with
        | nil => exact absurd hl hne
        | cons m t => simp [add_message, hl]
      · cases hl : st.conversation_history with
        | nil => exact absurd hl hne
        | cons m t => simp [add_message, hl]

/-- Claim C8: after a `set_system_prompt` call, any sequence of `add_message`
calls leaves the first element of the conversation history with role
"system". -/
theorem C8_system_stays_first (st : LLMState) (p : String)
    (ms : List (String × String)) :
    ((add_messages (set_system_prompt st p) ms).conversation_history.head?.map
        Message.role) = some "system" := by
  rw [add_messages_head ms (set_system_prompt st p) (by simp [set_system_prompt])]
  rfl

/-- Claim C5: activating any name bound in the registry returns `True` and
resets the conversation history to exactly one element, a system message whose
content is that agent's system prompt, whatever the prior history was. -/
theorem C5_set_agent_known (llm : LLMState) (agents : List (String × Agent))
    (name : String) (a : Agent) (h : lookupAgent agents name = some a) :
    (set_agent { llm := llm, agents := agents } name).2 = true ∧
    (set_agent { llm := llm, agents := agents } name).1.llm.conversation_history
      = [{ role := "system", content := a.system_prompt }] := by
  constructor <;> simp [set_agent, h, LLMInterface.set_system_prompt]

/-- Witness for C5: activating "default" on the initial registry from any
session state. -/
theorem C5_set_agent_known_witness :
    lookupAgent initialAgents "default"
      = some { system_prompt := "你是一个有帮助的助手。使用中文回答。",
               voice := "default" } ∧
    ((set_agent { llm := freshState, agents := initialAgents } "default").2 = true ∧
     (set_agent { llm := freshState, agents := initialAgents }
         "default").1.llm.conversation_history
       = [{ role := "system",
            content := "你是一个有帮助的助手。使用中文回答。" }]) :=
  ⟨rfl, C5_set_agent_known freshState initialAgents "default" _ rfl⟩

/-- Claim C6: activating a name not bound in the registry returns `False`,
raises nothing, and leaves the whole session state unchanged: the agent list,
the conversation history and the configured system prompt are all as before. -/
theorem C6_set_agent_unknown (st : AgentManagerState) (name : String)
    (h : lookupAgent st.agents name = none) :
    set_agent st name = (st, false) ∧
    list_agents (set_agent st name).1 = list_agents st ∧
    (set_agent st name).1.llm.conversation_history
      = st.llm.conversation_history ∧
    (set_agent st name).1.llm.system_prompt = st.llm.system_prompt := by
  refine ⟨?_, ?_, ?_, ?_⟩ <;> simp [set_agent, h]

/-- Witness for C6: activating the unregistered name "friend" on the initial
registry. -/
theorem C6_set_agent_unknown_witness :
    lookupAgent initialAgents "friend" = none ∧
    (set_agent { llm := freshState, agents := initialAgents } "friend"
        = ({ llm := freshState, agents := initialAgents }, false) ∧
     list_agents (set_agent { llm := freshState, agents := initialAgents }
           "friend").1
       = list_agents { llm := freshState, agents := initialAgents } ∧
     (set_agent { llm := freshState, agents := initialAgents }
         "friend").1.llm.conversation_history
       = freshState.conversation_history ∧
     (set_agent { llm := freshState, agents := initialAgents }
         "friend").1.llm.system_prompt = freshState.system_prompt) :=
  ⟨rfl, C6_set_agent_unknown { llm := freshState, agents := initialAgents }
    "friend" rfl⟩

/-- Counterexample to claim C2 as stated: `add_message` called with role
"system" does not fail and does append the message; starting from a history
holding one system message, the call yields a two-element history whose second
element is the appended system message. -/
theorem C2_counterexample :
    (add_message
        { conversation_history := [{ role := "system", content := "p" }],
          system_prompt := "p" } "system" "x").conversation_history
      = [{ role := "system", content := "p" },
         { role := "system", content := "x" }] ∧
    (add_message
        { conversation_history := [{ role := "system", content := "p" }],
          system_prompt := "p" } "system" "x").conversation_history
      ≠ [{ role := "system", content := "p" }] :=
  ⟨rfl, by decide⟩

/-- Claim C2 amended: `add_message` performs no role validation at all; for
every state, role and content — including role "system" — the message is
appended at the end of the history and nothing is rejected. -/
theorem C2_amended_add_message_unchecked (st : LLMState)
    (role content : String) :
    (add_message st role content).conversation_history
      = st.conversation_history ++ [{ role := role, content := content }] ∧
    (add_message st "system" content).conversation_history
      = st.conversation_history
          ++ [{ role := "system", content := content }] :=
  ⟨rfl, rfl⟩

/-- Counterexample to claim C1 as stated: with a transport that raises and a
session whose history is the single system message, `chat "x"` returns the
error string but the history grows by one element (the user message), not
two: no assistant message carrying the error text is recorded. -/
theorem C1_counterexample :
    (ANT.chat (failTransport "boom")
        { conversation_history := [{ role := "system", content := "p" }],
          system_prompt := "p" } "x").2
      = "Error generating response: boom" ∧
    (ANT.chat (failTransport "boom")
        { conversation_history := [{ role := "system", content := "p" }],
          system_prompt := "p" } "x").1.conversation_history
      = [{ role := "system", content := "p" },
         { role := "user", content := "x" }] ∧
    (ANT.chat (failTransport "boom")
        { conversation_history := [{ role := "system", content := "p" }],
          system_prompt := "p" } "x").1.conversation_history.length
      ≠ 1 + 2 :=
  ⟨rfl, rfl, by decide⟩

/-- Claim C1 amended: when the transport raises, `chat x` returns
`"Error generating response: <detail>"`, and for a session whose first
history element has role "system" the history grows by exactly one element,
the appended user message; the error text is not recorded in history. -/
theorem C1_amended_error_not_recorded (st : LLMState) (x d : String)
    (h : st.conversation_history.head?.map Message.role = some "system") :
    (ANT.chat (failTransport d) st x).2
      = "Error generating response: " ++ d ∧
    (ANT.chat (failTransport d) st x).1.conversation_history
      = st.conversation_history ++ [{ role := "user", content := x }] := by
  have hes : ensure_system st = st := by
    cases hl : st.conversation_history with
    | nil => rw [hl] at h; simp at h
    | cons m t =>
        rw [hl] at h
        simp at h
        simp [ensure_system, hl, h]
  constructor <;>
    simp [ANT.chat, generate_response, failTransport, hes, add_message]

/-- Witness for the amended C1 at a concrete session and error detail. -/
theorem C1_amended_error_not_recorded_witness :
    ({ conversation_history := [{ role := "system", content := "p" }],
       system_prompt := "p" } : LLMState).conversation_history.head?.map
        Message.role = some "system" ∧
    ((ANT.chat (failTransport "boom")
        { conversation_history := [{ role := "system", content := "p" }],
          system_prompt := "p" } "x").2
      = "Error generating response: " ++ "boom" ∧
     (ANT.chat (failTransport "boom")
        { conversation_history := [{ role := "system", content := "p" }],
          system_prompt := "p" } "x").1.conversation_history
      = [{ role := "system", content := "p" }]
          ++ [{ role := "user", content := "x" }]) :=
  ⟨rfl, C1_amended_error_not_recorded
    { conversation_history := [{ role := "system", content := "p" }],
      system_prompt := "p" } "x" "boom" rfl⟩

/-- Counterexample to claim C3 as stated: with a history whose first element
is a user message (no leading system message), the heal step inside
`generate_response` replaces the whole history instead of inserting the system
prompt at position 0: the prior user message "a" is discarded, not kept after
the inserted system message. -/
theorem C3_counterexample :
    (ANT.chat (constTransport "OK")
        { conversation_history := [{ role := "user", content := "a" }],
          system_prompt := "p" } "x").1.conversation_history
      = [{ role := "system", content := "p" },
         { role := "user", content := "x" },
         { role := "assistant", content := "OK" }] ∧
    ({ role := "user", content := "a" } : Message)
      ∉ (ANT.chat (constTransport "OK")
          { conversation_history := [{ role := "user", content := "a" }],
            system_prompt := "p" } "x").1.conversation_history :=
  ⟨rfl, by decide⟩

/-- Helper for the amended C3: the heal step is idempotent. -/
theorem ensure_system_idem (st : LLMState) :
    ensure_system (ensure_system st) = ensure_system st := by
  cases hl : st.conversation_history with
  | nil => simp [ensure_system, hl]
  | cons m t =>
      by_cases hm : m.role = "system" <;> simp [ensure_system, hl, hm]

/-- Claim C3 amended: the self-healing step happens only inside
`generate_response`, not before every `add_message`: `generate_response`
behaves exactly as if the state were first healed, the heal leaves a history
with a leading system message untouched and otherwise replaces the entire
history by the single configured system message (discarding prior elements),
and a bare `add_message` appends without any healing. -/
theorem C3_amended_heal_inside_generate_response (tr : Transport)
    (st : LLMState) (x model : String) (temperature : ℚ) (max_tokens : Nat) :
    generate_response tr st x model temperature max_tokens
      = generate_response tr (ensure_system st) x model temperature
          max_tokens ∧
    (ensure_system st).conversation_history
      = (if st.conversation_history.head?.map Message.role = some "system"
         then st.conversation_history
         else [{ role := "system", content := st.system_prompt }]) ∧
    ∀ r c, (add_message st r c).conversation_history
      = st.conversation_history ++ [{ role := r, content := c }] := by
  refine ⟨?_, ?_, fun r c => rfl⟩
  · simp [generate_response, ensure_system_idem]
  · cases hl : st.conversation_history with
    | nil => simp [ensure_system, hl]
    | cons m t =>
        by_cases hm : m.role = "system" <;> simp [ensure_system, hl, hm]
